import Mathlib

/-!
A shallow embedding of the pre-buffered streaming playback core of a small
Discord music bot (src/index.js): the buffered stream pipeline
(`createBufferedStream`, lines 68-117), the per-guild queue map
(`queues`, line 30), the player loop (`playSong`, lines 120-159) and the
slash-command handler (`interactionCreate`, lines 164-237).

Modelling conventions: subprocesses are tracked by pid in a liveness
list; the raw audio bytes, the voice connection handshake and logging
are elided; external collaborators (yt-dlp, ffmpeg, yt-search, the
Discord gateway) are oracles passed in as parameters. A pipeline whose
creation fails is abstracted as spawning no surviving process, which is
conservative in favour of the "no orphans" claims.
-/

namespace MungieBot

/-- Identity of one of the two pipeline subprocesses: the downloader
(yt-dlp, spawned at line 70) or the transcoder (ffmpeg, line 77). -/
inductive ProcId where
  | ytdlp
  | ffmpeg
deriving DecidableEq, Repr

/-- A downloader/transcoder subprocess pair, by pid, as returned in the
`proc` field of the handle built at line 116. -/
structure ProcPair where
  ytdlp : Nat
  ffmpeg : Nat
deriving DecidableEq, Repr

/-- Events observable by the buffering wait of `createBufferedStream`:
a data chunk on the stdout of ffmpeg (line 93), the stdout end event
(line 98), a process-level error from either subprocess (lines 110-111),
and a firing of the 10 ms `check` timer (line 106). -/
inductive PipeEvent where
  | chunk (len : Nat)
  | eof
  | procError (p : ProcId)
  | poll
deriving DecidableEq, Repr

/-- How the promise awaited at line 103 settles. A rejection carries the
error object emitted by the failing subprocess, which identifies that
subprocess; the model keeps exactly that identity. -/
inductive WaitResult where
  | resolved
  | rejected (p : ProcId)
deriving DecidableEq, Repr

/-- The buffering wait of `createBufferedStream` (lines 103-112), run
over the sequence of events it can observe. The byte counter `buffered`
is increased by each data chunk (line 94); the promise settles at the
first `poll` where `buffered >= bufferLimit` (line 105, resolve) or at
the first subprocess error event (lines 110-111, reject). The stdout
end event only ends the pass-through stream (lines 98-100); nothing in
the wait observes it, so it leaves the wait pending. The result `none`
means the promise has not settled after the given events. -/
def bufferWait (limit : Nat) : Nat → List PipeEvent → Option WaitResult
  | _, [] => none
  | buffered, PipeEvent.chunk n :: rest => bufferWait limit (buffered + n) rest
  | buffered, PipeEvent.eof :: rest => bufferWait limit buffered rest
  | _, PipeEvent.procError p :: _ => some (WaitResult.rejected p)
  | buffered, PipeEvent.poll :: rest =>
      if limit ≤ buffered then some WaitResult.resolved
      else bufferWait limit buffered rest

/-- The wait as entered at line 103: `check()` runs once immediately
(line 108), i.e. there is an initial poll before any further event. -/
def streamWait (limit : Nat) (events : List PipeEvent) : Option WaitResult :=
  bufferWait limit 0 (PipeEvent.poll :: events)

/-- Total number of bytes carried by the data-chunk events of a trace. -/
def chunkTotal : List PipeEvent → Nat
  | [] => 0
  | PipeEvent.chunk n :: rest => n + chunkTotal rest
  | _ :: rest => chunkTotal rest

/-- Whether an event is a subprocess error event. -/
def isProcError : PipeEvent → Bool
  | PipeEvent.procError _ => true
  | _ => false

/-- A queue entry (line 30): title, url, and the saved stream-pipeline
handle (`song.buffer`, written at lines 134 and 197), reduced to its
subprocess pair; the pass-through stream of the handle is elided. -/
structure Song where
  title : String
  url : String
  buffer : Option ProcPair
deriving DecidableEq, Repr

/-- The per-guild entry of the `queues` map (lines 30 and 213): the song
queue, the `playProcess` pair of the song most recently started (line
143), and the numbers of not-yet-fired once-listeners registered on the
audio player for `AudioPlayerStatus.Idle` (line 145) and for `error`
(line 152). The voice connection and the player object itself carry no
further state that the claims touch. -/
structure Server where
  songs : List Song
  playProcess : Option ProcPair
  idleListeners : Nat
  errorListeners : Nat
deriving DecidableEq, Repr

/-- Global state for one guild: the optional `queues` entry, the pids of
currently live subprocesses, and a fresh-pid source for spawns. -/
structure World where
  server : Option Server
  alive : List Nat
  nextPid : Nat
deriving DecidableEq, Repr

/-- Effect of `proc.kill()` under try/catch: the pid stops being live;
killing an already dead pid is a no-op. -/
def killPid (pid : Nat) (alive : List Nat) : List Nat :=
  alive.filter (fun q => q != pid)

/-- The two kill statements of the advancement handlers (lines 146-147
and 154-155): kill the ytdlp process, then the ffmpeg process, of the
given pair; a `none` pair means both optional chains short-circuit. -/
def killPair (p : Option ProcPair) (alive : List Nat) : List Nat :=
  match p with
  | none => alive
  | some pr => killPid pr.ffmpeg (killPid pr.ytdlp alive)

/-- The body of `playSong` (lines 120-159), recursing on the song queue.
Parameters `il` and `el` are the listener counts of the server object
(shared by reference across the recursion), `alive` and `np` the process
state. For the head song: a saved `song.buffer` is reused (line 133);
otherwise `createBufferedStream` is consulted through the oracle `ok`
on the song url — on success a fresh pair is spawned, saved into the
song (line 134), played (lines 141-143, setting `playProcess`) and one
Idle and one error once-listener are registered (lines 145 and 152); on
failure the head is shifted and the call recurses (lines 137-138). An
empty queue destroys the connection and deletes the map entry
(lines 122-125). -/
def playSongAux (ok : String → Bool) (il el : Nat) (alive : List Nat) (np : Nat) :
    List Song → World
  | [] => ⟨none, alive, np⟩
  | song :: rest =>
    match song.buffer with
    | some pr =>
        ⟨some ⟨song :: rest, some pr, il + 1, el + 1⟩, alive, np⟩
    | none =>
        if ok song.url then
          ⟨some ⟨{ song with buffer := some ⟨np, np + 1⟩ } :: rest,
                 some ⟨np, np + 1⟩, il + 1, el + 1⟩,
           alive ++ [np, np + 1], np + 2⟩
        else
          playSongAux ok il el alive np rest

/-- `playSong(guildId)` (line 120): read the `queues` entry and run the
loop; a missing entry just destroys the (absent) connection and
returns (lines 122-126). -/
def playSong (ok : String → Bool) (w : World) : World :=
  match w.server with
  | none => { w with server := none }
  | some server =>
      playSongAux ok server.idleListeners server.errorListeners w.alive w.nextPid server.songs

/-- Songs currently queued for the guild (empty when no session). -/
def worldSongs (w : World) : List Song :=
  match w.server with
  | none => []
  | some server => server.songs

/-- One execution of the Idle once-listener body (lines 145-150): kill
the `playProcess` pair of the captured server, shift the head off the
queue; the `setImmediate(playSong)` is deferred and modelled at the
emission level. -/
def handlerBodyIdle (w : World) : World :=
  match w.server with
  | none => w
  | some server =>
      { w with alive := killPair server.playProcess w.alive,
               server := some { server with songs := server.songs.tail } }

/-- One execution of the error once-listener body (lines 152-158):
identical to the Idle body up to the `console.error` log line, which is
not state. -/
def handlerBodyError (w : World) : World :=
  match w.server with
  | none => w
  | some server =>
      { w with alive := killPair server.playProcess w.alive,
               server := some { server with songs := server.songs.tail } }

/-- Emission of `AudioPlayerStatus.Idle` on the player: every
accumulated once-listener (one is added per successful `playSong`
start, line 145) fires and is removed, then the deferred `playSong`
calls queued by `setImmediate` (line 149) run, one per fired
listener. -/
def emitIdle (ok : String → Bool) (w : World) : World :=
  match w.server with
  | none => w
  | some server =>
      let k := server.idleListeners
      let w0 : World := { w with server := some { server with idleListeners := 0 } }
      (playSong ok)^[k] (handlerBodyIdle^[k] w0)

/-- Emission of `error` on the player: every accumulated once-listener
(one per successful `playSong` start, line 152) fires and is removed,
then the deferred `playSong` calls (line 157) run. -/
def emitError (ok : String → Bool) (w : World) : World :=
  match w.server with
  | none => w
  | some server =>
      let k := server.errorListeners
      let w0 : World := { w with server := some { server with errorListeners := 0 } }
      (playSong ok)^[k] (handlerBodyError^[k] w0)

/-- One search hit as returned by yt-search. -/
structure Video where
  title : String
  url : String
deriving DecidableEq, Repr

/-- Outcome of the awaited `ytSearch(query)` call (lines 186 and 190):
either a (possibly empty) list of videos, or a thrown error, which the
surrounding try/catch turns into the failure reply at line 201. -/
inductive SearchOutcome where
  | ok (videos : List Video)
  | err
deriving DecidableEq, Repr

/-- The replies the modelled handler branches produce (lines 176, 191,
201, 219 and 228). -/
inductive Reply where
  | notInVoice
  | noResults
  | resolveFailed
  | nowPlaying (title : String)
  | added (title : String)
deriving DecidableEq, Repr

/-- Boolean prefix test on character lists, used to embed the anchored
parts of the regex at line 181. -/
def listPre : List Char → List Char → Bool
  | [], _ => true
  | _ :: _, [] => false
  | a :: as, b :: bs => a == b && listPre as bs

/-- Strip an optional literal prefix, as an optional regex group does. -/
def dropPre (p s : List Char) : List Char :=
  if listPre p s then s.drop p.length else s

/-- ASCII lower-casing of one character, embedding the case-insensitive
flag of the regex. -/
def lowerChar (c : Char) : Char :=
  if 'A' ≤ c && c ≤ 'Z' then Char.ofNat (c.toNat + 32) else c

/-- The URL test of line 181: the query matches
`^(https?://)?(www.)?(youtube.com|youtu.be)/` case-insensitively. The
three groups are unambiguous anchored prefixes, so greedy stripping is
an exact embedding of the regex. -/
def isYoutubeUrl (q : String) : Bool :=
  let s := q.data.map lowerChar
  let s1 := if listPre ("https://".data) s then s.drop 8
            else if listPre ("http://".data) s then s.drop 7 else s
  let s2 := dropPre ("www.".data) s1
  listPre ("youtube.com/".data) s2 || listPre ("youtu.be/".data) s2

/-- The title fallback of line 187: `info?.videos?.[0]?.title || query`.
A missing video list, a missing first video and an empty title string
are all falsy, so the raw query is used in those cases. -/
def urlFallbackTitle (videos : List Video) (query : String) : String :=
  let t := (videos.head?.map Video.title).getD ""
  if t = "" then query else t

/-- The resolution phase of the play branch (lines 179-194): a query
matching the URL pattern is kept as the url itself with the fallback
title (lines 185-188, no failure on an empty result list); otherwise an
empty or missing video list produces the no-results reply (line 191)
and a hit is taken from the first video (lines 192-193). A throwing
search lands in the catch at line 199. -/
def resolvePlay (query : String) (search : SearchOutcome) : Except Reply Song :=
  if isYoutubeUrl query then
    match search with
    | SearchOutcome.ok videos =>
        Except.ok ⟨urlFallbackTitle videos query, query, none⟩
    | SearchOutcome.err => Except.error Reply.resolveFailed
  else
    match search with
    | SearchOutcome.ok videos =>
        match videos with
        | [] => Except.error Reply.noResults
        | v :: _ => Except.ok ⟨v.title, v.url, none⟩
    | SearchOutcome.err => Except.error Reply.resolveFailed

/-- The play subcommand (lines 175-230). After the voice-channel guard
(line 176) and resolution, the song is pre-buffered immediately
(line 197): on success a fresh live pair is spawned and saved in
`song.buffer`; a rejection lands in the same catch as a search error
(lines 199-202). Then either a new session is created with the song as
its queue and `playSong` is awaited (lines 205-219), or the song is
appended to the existing queue, current playback untouched
(lines 226-229). `createAudioResource` and `player.play` are total
externals, so the catch of line 220 is unreachable in the model. -/
def handlePlay (query : String) (search : SearchOutcome) (ok : String → Bool)
    (inVoice : Bool) (w : World) : Reply × World :=
  if inVoice then
    match resolvePlay query search with
    | Except.error r => (r, w)
    | Except.ok s0 =>
        if ok s0.url then
          let song : Song := { s0 with buffer := some ⟨w.nextPid, w.nextPid + 1⟩ }
          let w1 : World :=
            { w with alive := w.alive ++ [w.nextPid, w.nextPid + 1],
                     nextPid := w.nextPid + 2 }
          match w1.server with
          | none =>
              let w2 : World := { w1 with server := some ⟨[song], none, 0, 0⟩ }
              (Reply.nowPlaying song.title, playSong ok w2)
          | some server =>
              (Reply.added song.title,
               { w1 with server := some { server with songs := server.songs ++ [song] } })
        else (Reply.resolveFailed, w)
  else (Reply.notInVoice, w)

/-- A thrown JavaScript error, as far as the claims need it. -/
inductive JsError where
  | referenceError (name : String)
deriving DecidableEq, Repr

/-- Names visible at the skip branch (lines 232-234): the module-level
bindings (lines 2-120), the destructured handler parameters (line 166),
`sub` and `voiceChannel` (lines 172-173), and ambient Node globals. The
binding `let song` of line 179 is block-scoped to the play branch
(lines 175-230) and is therefore absent here. -/
def skipScopeNames : List String :=
  ["dotenv", "spawn", "Client", "GatewayIntentBits", "REST", "Routes",
   "joinVoiceChannel", "createAudioPlayer", "createAudioResource",
   "AudioPlayerStatus", "StreamType", "ytSearch", "PassThrough",
   "TOKEN", "CLIENT_ID", "GUILD_ID", "client", "queues", "commands",
   "rest", "registerCommands", "createBufferedStream", "playSong",
   "interaction", "commandName", "guildId", "member", "options",
   "sub", "voiceChannel",
   "process", "console", "setTimeout", "setImmediate"]

/-- Evaluation of a bare identifier: a name bound in no enclosing scope
throws a ReferenceError. -/
def evalName (scope : List String) (n : String) : Except JsError Unit :=
  if scope.contains n then Except.ok () else Except.error (JsError.referenceError n)

/-- The skip branch (lines 232-234): building the reply template
interpolates `song.title`, which first resolves the name `song`; if
that throws, the handler fails before replying or touching any state,
so the unchanged world is returned only on success. -/
def handleSkip (w : World) : Except JsError World :=
  match evalName skipScopeNames "song" with
  | Except.error e => Except.error e
  | Except.ok _ => Except.ok w

/-- Whether a song holds a live (not yet killed) owned process: either
pid of its saved pipeline pair is still alive. -/
def songLiveProcs (alive : List Nat) (s : Song) : Bool :=
  match s.buffer with
  | some p => decide (p.ytdlp ∈ alive) || decide (p.ffmpeg ∈ alive)
  | none => false

/-- Number of queued songs that hold live owned processes. -/
def liveProcsSongCount (w : World) : Nat :=
  (worldSongs w).countP (songLiveProcs w.alive)

/-! ## Helper lemmas -/

theorem take_length_append {α : Type} (l : List α) (x : α) :
    (l ++ [x]).take l.length = l := by
  induction l with
  | nil => rfl
  | cons a as ih => simp [List.take, ih]

/-- While no subprocess error arrives and the chunks seen stay under the
threshold, the wait stays pending, no matter how often the poll fires
and whether the end event arrives. -/
theorem bufferWait_pending_of_short (limit : Nat) :
    ∀ (events : List PipeEvent) (b : Nat),
      (∀ e ∈ events, isProcError e = false) →
      b + chunkTotal events < limit →
      bufferWait limit b events = none := by
  intro events
  induction events with
  | nil => intro b _ _; rfl
  | cons e rest ih =>
    intro b hne hlt
    have hrest : ∀ x ∈ rest, isProcError x = false := by
      intro x hx
      exact hne x (List.mem_cons_of_mem _ hx)
    cases e with
    | chunk n =>
      have h2 : b + n + chunkTotal rest < limit := by
        have h3 : chunkTotal (PipeEvent.chunk n :: rest) = n + chunkTotal rest := rfl
        rw [h3] at hlt
        omega
      exact ih (b + n) hrest h2
    | eof =>
      exact ih b hrest hlt
    | procError p =>
      have h3 := hne _ (List.mem_cons_self _ _)
      simp [isProcError] at h3
    | poll =>
      have hb : ¬ limit ≤ b := by omega
      have h4 : bufferWait limit b (PipeEvent.poll :: rest) =
          if limit ≤ b then some WaitResult.resolved else bufferWait limit b rest := rfl
      rw [h4, if_neg hb]
      exact ih b hrest hlt

/-- A wait that is still pending after a prefix of events settles as a
rejection carrying the erroring process when that process errors next,
whatever follows. -/
theorem bufferWait_none_append_error (limit : Nat) (p : ProcId) :
    ∀ (pre : List PipeEvent) (b : Nat) (post : List PipeEvent),
      bufferWait limit b pre = none →
      bufferWait limit b (pre ++ PipeEvent.procError p :: post) =
        some (WaitResult.rejected p) := by
  intro pre
  induction pre with
  | nil => intro b post _; rfl
  | cons e rest ih =>
    intro b post hp
    cases e with
    | chunk n => exact ih (b + n) post hp
    | eof => exact ih b post hp
    | procError q => exact Option.noConfusion hp
    | poll =>
      by_cases hb : limit ≤ b
      · have h4 : bufferWait limit b (PipeEvent.poll :: rest) =
            if limit ≤ b then some WaitResult.resolved else bufferWait limit b rest := rfl
        rw [h4, if_pos hb] at hp
        exact Option.noConfusion hp
      · have h4 : bufferWait limit b (PipeEvent.poll :: rest) =
            if limit ≤ b then some WaitResult.resolved else bufferWait limit b rest := rfl
        rw [h4, if_neg hb] at hp
        have h5 : bufferWait limit b ((PipeEvent.poll :: rest) ++ PipeEvent.procError p :: post) =
            if limit ≤ b then some WaitResult.resolved
            else bufferWait limit b (rest ++ PipeEvent.procError p :: post) := rfl
        rw [h5, if_neg hb]
        exact ih b post hp

/-- All songs of the queue failing to start drives the loop straight to
the empty-queue teardown, spawning nothing. -/
theorem playSongAux_all_fail (ok : String → Bool) (il el : Nat) :
    ∀ (songs : List Song) (alive : List Nat) (np : Nat),
      (∀ s ∈ songs, s.buffer = none ∧ ok s.url = false) →
      playSongAux ok il el alive np songs = ⟨none, alive, np⟩ := by
  intro songs
  induction songs with
  | nil => intro alive np _; rfl
  | cons song rest ih =>
    intro alive np h
    have hh := h song (List.mem_cons_self _ _)
    have hrest : ∀ s ∈ rest, s.buffer = none ∧ ok s.url = false := by
      intro s hs
      exact h s (List.mem_cons_of_mem _ hs)
    rcases song with ⟨t, u, b⟩
    have hb : b = none := hh.1
    subst hb
    have hok : ok u = false := hh.2
    simp only [playSongAux, hok, Bool.false_eq_true, if_false]
    exact ih alive np hrest

/-- Enqueue on an existing session (lines 226-229), written out: the
reply acknowledges the addition, the new song (holding its freshly
spawned pre-buffer pair) is appended at the tail, the two new pids
become live, and no other component of the state changes. -/
theorem handlePlay_existing (query : String) (search : SearchOutcome) (ok : String → Bool)
    (w : World) (server : Server) (s0 : Song)
    (hs : w.server = some server) (hr : resolvePlay query search = Except.ok s0)
    (hok : ok s0.url = true) :
    handlePlay query search ok true w =
      (Reply.added s0.title,
       ⟨some { server with songs := server.songs ++
            [{ s0 with buffer := some ⟨w.nextPid, w.nextPid + 1⟩ }] },
        w.alive ++ [w.nextPid, w.nextPid + 1], w.nextPid + 2⟩) := by
  rcases w with ⟨sv, al, np⟩
  have hs2 : sv = some server := hs
  subst hs2
  simp [handlePlay, hr, hok]

/-- A URL-branch resolution never produces the no-results reply. -/
theorem resolvePlay_url_not_noResults (query : String) (search : SearchOutcome)
    (hurl : isYoutubeUrl query = true) :
    resolvePlay query search ≠ Except.error Reply.noResults := by
  cases search with
  | ok videos => simp [resolvePlay, hurl]
  | err => simp [resolvePlay, hurl]

/-- Whole-handler version: no run of the play branch on a URL query can
reply with the no-results message, whatever the search returns and
whatever state the guild is in. -/
theorem handlePlay_url_not_noResults (query : String) (search : SearchOutcome)
    (ok : String → Bool) (inVoice : Bool) (w : World)
    (hurl : isYoutubeUrl query = true) :
    (handlePlay query search ok inVoice w).1 ≠ Reply.noResults := by
  cases inVoice with
  | false => simp [handlePlay]
  | true =>
    cases hres : resolvePlay query search with
    | error r =>
      have hne := resolvePlay_url_not_noResults query search hurl
      rw [hres] at hne
      intro h1
      simp [handlePlay, hres] at h1
      exact hne (by rw [h1])
    | ok s0 =>
      rcases w with ⟨sv, al, np⟩
      by_cases hok : ok s0.url
      · cases sv with
        | none => simp [handlePlay, hres, hok]
        | some server => simp [handlePlay, hres, hok]
      · simp [handlePlay, hres, hok]

/-! ## Claim theorems -/

/-- C1 (code_bug): the claim says the buffering promise of
`createBufferedStream` resolves when the byte counter reaches the
target OR the transcoder signals end-of-stream, in particular for a
stream that ends before the threshold. The code (lines 103-112) only
checks `buffered >= bufferLimit` in the polled `check` and registers no
listener for the end event inside the promise, so for any event trace
without a subprocess error whose chunks total fewer bytes than the
threshold — including traces containing the end-of-stream event and
arbitrarily many poll firings — the promise never settles. -/
theorem short_stream_wait_never_settles (limit : Nat) (events : List PipeEvent)
    (hne : ∀ e ∈ events, isProcError e = false)
    (hshort : chunkTotal events < limit) :
    streamWait limit events = none := by
  have hb : ¬ limit ≤ 0 := by omega
  have h4 : streamWait limit events =
      if limit ≤ 0 then some WaitResult.resolved else bufferWait limit 0 events := rfl
  rw [h4, if_neg hb]
  exact bufferWait_pending_of_short limit events 0 hne (by omega)

/-- Witness for C1: with the 5 MiB threshold of the source and a stream
of 100 bytes followed by end-of-stream, the wait is still pending after
any number of polls. -/
theorem short_stream_wait_never_settles_witness :
    (∀ e ∈ [PipeEvent.chunk 100, PipeEvent.eof, PipeEvent.poll, PipeEvent.poll],
        isProcError e = false) ∧
    chunkTotal [PipeEvent.chunk 100, PipeEvent.eof, PipeEvent.poll, PipeEvent.poll] < 5242880 ∧
    streamWait 5242880 [PipeEvent.chunk 100, PipeEvent.eof, PipeEvent.poll, PipeEvent.poll] =
      none :=
  ⟨by decide, by decide,
   short_stream_wait_never_settles 5242880 _ (by decide) (by decide)⟩

/-- C8 (confirmed): if either subprocess emits a process-level error
while the buffering wait is still pending — in particular before the
threshold is reached — the promise rejects, and the rejection value is
the error of the failing process, i.e. it carries the identity of the
failing process (downloader vs transcoder). -/
theorem pipeline_error_rejects_with_identity (limit : Nat) (pre post : List PipeEvent)
    (p : ProcId) (h : streamWait limit pre = none) :
    streamWait limit (pre ++ PipeEvent.procError p :: post) =
      some (WaitResult.rejected p) := by
  exact bufferWait_none_append_error limit p (PipeEvent.poll :: pre) 0 post h

/-- Witness for C8: a downloader error after 3 of 10 bytes rejects with
the downloader identity. -/
theorem pipeline_error_rejects_with_identity_witness :
    streamWait 10 [PipeEvent.chunk 3, PipeEvent.poll] = none ∧
    streamWait 10
        ([PipeEvent.chunk 3, PipeEvent.poll] ++ PipeEvent.procError ProcId.ytdlp :: []) =
      some (WaitResult.rejected ProcId.ytdlp) :=
  ⟨by decide,
   pipeline_error_rejects_with_identity 10 [PipeEvent.chunk 3, PipeEvent.poll] []
     ProcId.ytdlp (by decide)⟩

/-- C3 (confirmed): on a queue all of whose songs fail to start, each
failure shifts exactly one song off the head and retries with the new
head (second conjunct, the recursive step of lines 137-138), and the
loop — structurally recursive on the queue, hence running at most one
iteration per queued song — ends at the empty queue with the connection
destroyed and the guild entry removed from `queues` (first conjunct,
lines 122-125). -/
theorem playSong_all_failing (ok : String → Bool) (w : World) (server : Server)
    (hs : w.server = some server)
    (hfail : ∀ s ∈ server.songs, s.buffer = none ∧ ok s.url = false) :
    playSong ok w = ⟨none, w.alive, w.nextPid⟩ ∧
    ∀ (il el : Nat) (alive : List Nat) (np : Nat) (song : Song) (rest : List Song),
      song.buffer = none → ok song.url = false →
      playSongAux ok il el alive np (song :: rest) = playSongAux ok il el alive np rest := by
  constructor
  · simp only [playSong, hs]
    exact playSongAux_all_fail ok server.idleListeners server.errorListeners
      server.songs w.alive w.nextPid hfail
  · intro il el alive np song rest hb hok
    rcases song with ⟨t, u, b⟩
    have hb2 : b = none := hb
    subst hb2
    have hok2 : ok u = false := hok
    simp only [playSongAux, hok2, Bool.false_eq_true, if_false]

/-- Witness for C3: a two-song queue in which both songs fail is torn
down completely. -/
theorem playSong_all_failing_witness :
    ((⟨some ⟨[⟨"A", "u", none⟩, ⟨"B", "v", none⟩], none, 0, 0⟩, [], 0⟩ : World).server =
        some ⟨[⟨"A", "u", none⟩, ⟨"B", "v", none⟩], none, 0, 0⟩) ∧
    (∀ s ∈ ([⟨"A", "u", none⟩, ⟨"B", "v", none⟩] : List Song),
        s.buffer = none ∧ (fun _ => false : String → Bool) s.url = false) ∧
    playSong (fun _ => false)
        ⟨some ⟨[⟨"A", "u", none⟩, ⟨"B", "v", none⟩], none, 0, 0⟩, [], 0⟩ =
      ⟨none, [], 0⟩ :=
  ⟨rfl, by decide,
   (playSong_all_failing (fun _ => false) _ _ rfl (by decide)).1⟩

/-- C5 (confirmed): an enqueue on a guild that already has a session
(lines 226-229) appends the new song at the tail — every existing entry
keeps its position — and changes nothing else: the reply is the
added-to-queue acknowledgement, the `playProcess` pair of the playing
song, the registered player listeners and the whole rest of the server
record are untouched, and every previously live process is still
live. -/
theorem enqueue_appends_tail_frame (query : String) (search : SearchOutcome)
    (ok : String → Bool) (w : World) (server : Server) (s0 : Song)
    (hs : w.server = some server) (hr : resolvePlay query search = Except.ok s0)
    (hok : ok s0.url = true) :
    handlePlay query search ok true w =
      (Reply.added s0.title,
       ⟨some { server with songs := server.songs ++
            [{ s0 with buffer := some ⟨w.nextPid, w.nextPid + 1⟩ }] },
        w.alive ++ [w.nextPid, w.nextPid + 1], w.nextPid + 2⟩) ∧
    (worldSongs (handlePlay query search ok true w).2).take server.songs.length =
      server.songs ∧
    (handlePlay query search ok true w).2.server.map Server.playProcess =
      some server.playProcess ∧
    (handlePlay query search ok true w).2.server.map Server.idleListeners =
      some server.idleListeners ∧
    (handlePlay query search ok true w).2.server.map Server.errorListeners =
      some server.errorListeners ∧
    ∀ pid ∈ w.alive, pid ∈ (handlePlay query search ok true w).2.alive := by
  have he := handlePlay_existing query search ok w server s0 hs hr hok
  rw [he]
  refine ⟨rfl, ?_, rfl, rfl, rfl, ?_⟩
  · simp only [worldSongs]
    exact take_length_append server.songs _
  · intro pid hp
    simp only [List.mem_append]
    exact Or.inl hp

/-- Witness for C5: enqueue of a second song while the first plays. -/
theorem enqueue_appends_tail_frame_witness :
    resolvePlay "q" (SearchOutcome.ok [⟨"B", "v"⟩]) = Except.ok ⟨"B", "v", none⟩ ∧
    handlePlay "q" (SearchOutcome.ok [⟨"B", "v"⟩]) (fun _ => true) true
        ⟨some ⟨[⟨"A", "u", some ⟨0, 1⟩⟩], some ⟨0, 1⟩, 1, 1⟩, [0, 1], 2⟩ =
      (Reply.added "B",
       ⟨some ⟨[⟨"A", "u", some ⟨0, 1⟩⟩, ⟨"B", "v", some ⟨2, 3⟩⟩], some ⟨0, 1⟩, 1, 1⟩,
        [0, 1, 2, 3], 4⟩) :=
  by
  refine ⟨rfl, ?_⟩
  have h := (enqueue_appends_tail_frame "q" (SearchOutcome.ok [⟨"B", "v"⟩]) (fun _ => true)
      ⟨some ⟨[⟨"A", "u", some ⟨0, 1⟩⟩], some ⟨0, 1⟩, 1, 1⟩, [0, 1], 2⟩
      ⟨[⟨"A", "u", some ⟨0, 1⟩⟩], some ⟨0, 1⟩, 1, 1⟩ ⟨"B", "v", none⟩
      rfl rfl rfl).1
  exact h

/-- State reached by two play requests on an initially session-free
guild: song A starts playing, song B is enqueued behind it; both were
pre-buffered at enqueue time (line 197). -/
def twoEnqueueTrace : World :=
  let w1 := (handlePlay "a" (SearchOutcome.ok [⟨"A", "u"⟩]) (fun _ => true) true
    ⟨none, [], 0⟩).2
  (handlePlay "b" (SearchOutcome.ok [⟨"B", "v"⟩]) (fun _ => true) true w1).2

/-- C2 counterexample: in the reachable state after enqueueing a second
song while the first plays, two songs of the queue hold live bound
process pairs — the head (via `playProcess`) and the non-head tail song
(via its pre-buffered handle, spawned at line 197 before the push at
line 227) — refuting the claim that at most one queued Song, the head,
ever has live owned processes. -/
theorem enqueue_breaks_single_live_invariant :
    liveProcsSongCount twoEnqueueTrace = 2 ∧
    twoEnqueueTrace.server.map Server.songs =
      some [⟨"A", "u", some ⟨0, 1⟩⟩, ⟨"B", "v", some ⟨2, 3⟩⟩] ∧
    songLiveProcs twoEnqueueTrace.alive ⟨"B", "v", some ⟨2, 3⟩⟩ = true := by
  decide

/-- C2 amended (corrected): what the code maintains instead — the
session-level binding `playProcess` refers to at most one pair and is
unchanged by an enqueue, but the enqueue pre-buffers the new song, so
the appended non-head Song itself holds a live owned process pair. -/
theorem enqueue_prebuffers_nonhead (query : String) (search : SearchOutcome)
    (ok : String → Bool) (w : World) (server : Server) (s0 : Song)
    (hs : w.server = some server) (hr : resolvePlay query search = Except.ok s0)
    (hok : ok s0.url = true) :
    worldSongs (handlePlay query search ok true w).2 =
      server.songs ++ [{ s0 with buffer := some ⟨w.nextPid, w.nextPid + 1⟩ }] ∧
    songLiveProcs (handlePlay query search ok true w).2.alive
        { s0 with buffer := some ⟨w.nextPid, w.nextPid + 1⟩ } = true ∧
    (handlePlay query search ok true w).2.server.map Server.playProcess =
      some server.playProcess := by
  have he := handlePlay_existing query search ok w server s0 hs hr hok
  rw [he]
  refine ⟨rfl, ?_, rfl⟩
  simp [songLiveProcs]

/-- Witness for the amended C2. -/
theorem enqueue_prebuffers_nonhead_witness :
    resolvePlay "q2" (SearchOutcome.ok [⟨"D", "z"⟩]) = Except.ok ⟨"D", "z", none⟩ ∧
    worldSongs (handlePlay "q2" (SearchOutcome.ok [⟨"D", "z"⟩]) (fun _ => true) true
        ⟨some ⟨[⟨"A", "u", some ⟨0, 1⟩⟩], some ⟨0, 1⟩, 1, 1⟩, [0, 1], 2⟩).2 =
      [⟨"A", "u", some ⟨0, 1⟩⟩, ⟨"D", "z", some ⟨2, 3⟩⟩] :=
  by
  refine ⟨rfl, ?_⟩
  have h := (enqueue_prebuffers_nonhead "q2" (SearchOutcome.ok [⟨"D", "z"⟩]) (fun _ => true)
      ⟨some ⟨[⟨"A", "u", some ⟨0, 1⟩⟩], some ⟨0, 1⟩, 1, 1⟩, [0, 1], 2⟩
      ⟨[⟨"A", "u", some ⟨0, 1⟩⟩], some ⟨0, 1⟩, 1, 1⟩ ⟨"D", "z", none⟩
      rfl rfl rfl).1
  exact h

/-- State after three play requests: A playing, B and C queued, each
song holding its own pre-buffered live pair. -/
def threeSongTrace : World :=
  let w1 := (handlePlay "a" (SearchOutcome.ok [⟨"A", "u"⟩]) (fun _ => true) true
    ⟨none, [], 0⟩).2
  let w2 := (handlePlay "b" (SearchOutcome.ok [⟨"B", "v"⟩]) (fun _ => true) true w1).2
  (handlePlay "c" (SearchOutcome.ok [⟨"C", "x"⟩]) (fun _ => true) true w2).2

/-- The same state after song A completes naturally and song B then
raises a playback error. -/
def staleListenerTrace : World :=
  emitError (fun _ => true) (emitIdle (fun _ => true) threeSongTrace)

/-- C4 (code_bug): every `playSong` start registers a fresh once-error
listener (line 152) without removing the previous one, so after A
completes and B starts, the player holds two error listeners. When B
errors, both fire: each kills `server.playProcess` (B's pair) and
shifts the queue, so song C — which had a stream-pipeline handle, pair
4/5, as the second conjunct of the trace state shows — is dequeued
without any kill aimed at its pair. The final state has no queue entry
left while pids 4 and 5 are still alive: orphaned subprocesses survive
the dequeue, refuting the claim. -/
theorem error_event_orphans_prebuffered_song :
    threeSongTrace.server.map Server.songs =
      some [⟨"A", "u", some ⟨0, 1⟩⟩, ⟨"B", "v", some ⟨2, 3⟩⟩, ⟨"C", "x", some ⟨4, 5⟩⟩] ∧
    threeSongTrace.server.map Server.errorListeners = some 1 ∧
    (emitIdle (fun _ => true) threeSongTrace).server.map Server.errorListeners = some 2 ∧
    staleListenerTrace.server = none ∧
    staleListenerTrace.alive = [4, 5] := by
  decide

/-- C6 (confirmed): the Idle once-listener (lines 145-150) and the
error once-listener (lines 152-158) perform the same state transition —
kill the bound pair, shift the head, schedule `playSong` for the new
head — so advancement by natural completion and advancement by playback
error agree on every state, and both leave the remaining songs in the
original FIFO order of the tail. -/
theorem advance_same_transition :
    (∀ w, handlerBodyIdle w = handlerBodyError w) ∧
    (∀ (ok : String → Bool) (w : World),
        playSong ok (handlerBodyIdle w) = playSong ok (handlerBodyError w)) ∧
    (∀ w, worldSongs (handlerBodyIdle w) = (worldSongs w).tail) := by
  refine ⟨fun w => rfl, fun ok w => rfl, fun w => ?_⟩
  rcases w with ⟨sv, al, np⟩
  cases sv with
  | none => rfl
  | some server => rfl

/-- C7 (confirmed): a non-URL play query for which the resolver returns
no results is answered with the no-results error reply before any state
is touched: the returned world is exactly the input world, so no
session is created, nothing is enqueued, and an existing queue is
unchanged. -/
theorem no_results_leaves_state_unchanged (query : String) (ok : String → Bool)
    (w : World) (hurl : isYoutubeUrl query = false) :
    handlePlay query (SearchOutcome.ok []) ok true w = (Reply.noResults, w) := by
  simp [handlePlay, resolvePlay, hurl]

/-- Witness for C7: a plain search term with no hits, against a guild
that already has a playing session. -/
theorem no_results_leaves_state_unchanged_witness :
    isYoutubeUrl "lofi beats" = false ∧
    handlePlay "lofi beats" (SearchOutcome.ok []) (fun _ => true) true
        ⟨some ⟨[⟨"A", "u", some ⟨0, 1⟩⟩], some ⟨0, 1⟩, 1, 1⟩, [0, 1], 2⟩ =
      (Reply.noResults,
       ⟨some ⟨[⟨"A", "u", some ⟨0, 1⟩⟩], some ⟨0, 1⟩, 1, 1⟩, [0, 1], 2⟩) :=
  ⟨by decide,
   no_results_leaves_state_unchanged "lofi beats" (fun _ => true)
     ⟨some ⟨[⟨"A", "u", some ⟨0, 1⟩⟩], some ⟨0, 1⟩, 1, 1⟩, [0, 1], 2⟩ (by decide)⟩

/-- C9 (confirmed): the skip branch (lines 232-234) interpolates
`song.title`, but `song` is declared with `let` inside the play branch
(line 179) and is bound in no scope enclosing the skip branch, so every
invocation of the skip handler throws a ReferenceError and never
advances the queue or replies. -/
theorem skip_handler_reference_error :
    skipScopeNames.contains "song" = false ∧
    ∀ w, handleSkip w = Except.error (JsError.referenceError "song") := by
  exact ⟨by decide, fun w => rfl⟩

/-- C10 (confirmed): for a query matching the YouTube URL pattern the
play branch never produces the no-results reply, whatever the resolver
reports (first conjunct); resolution always succeeds with the query
itself as the url and the fallback title (second conjunct), in
particular the raw query as title when the lookup yields no video
(third conjunct); and on an active session the song enqueued at the
tail carries the query as its url (fourth conjunct). -/
theorem url_query_never_no_results (query : String) (hurl : isYoutubeUrl query = true) :
    (∀ (search : SearchOutcome) (ok : String → Bool) (inVoice : Bool) (w : World),
        (handlePlay query search ok inVoice w).1 ≠ Reply.noResults) ∧
    (∀ videos, resolvePlay query (SearchOutcome.ok videos) =
        Except.ok ⟨urlFallbackTitle videos query, query, none⟩) ∧
    resolvePlay query (SearchOutcome.ok []) = Except.ok ⟨query, query, none⟩ ∧
    (∀ (videos : List Video) (ok : String → Bool) (w : World) (server : Server),
        w.server = some server → ok query = true →
        worldSongs (handlePlay query (SearchOutcome.ok videos) ok true w).2 =
          server.songs ++
            [⟨urlFallbackTitle videos query, query, some ⟨w.nextPid, w.nextPid + 1⟩⟩]) := by
  refine ⟨fun search ok inVoice w => handlePlay_url_not_noResults query search ok inVoice w hurl,
          fun videos => by simp [resolvePlay, hurl],
          by simp [resolvePlay, hurl, urlFallbackTitle],
          fun videos ok w server hs hok => ?_⟩
  have he := handlePlay_existing query (SearchOutcome.ok videos) ok w server
      ⟨urlFallbackTitle videos query, query, none⟩ hs (by simp [resolvePlay, hurl]) hok
  rw [he]
  simp [worldSongs]

/-- Witness for C10: a full YouTube URL with an empty resolver result
is not answered with the no-results reply, and resolves to itself as
both title and url. -/
theorem url_query_never_no_results_witness :
    isYoutubeUrl "https://www.youtube.com/watch?v=abc" = true ∧
    (handlePlay "https://www.youtube.com/watch?v=abc" (SearchOutcome.ok [])
        (fun _ => true) true ⟨none, [], 0⟩).1 ≠ Reply.noResults ∧
    resolvePlay "https://www.youtube.com/watch?v=abc" (SearchOutcome.ok []) =
      Except.ok ⟨"https://www.youtube.com/watch?v=abc",
                 "https://www.youtube.com/watch?v=abc", none⟩ :=
  ⟨by decide,
   (url_query_never_no_results "https://www.youtube.com/watch?v=abc" (by decide)).1
     (SearchOutcome.ok []) (fun _ => true) true ⟨none, [], 0⟩,
   (url_query_never_no_results "https://www.youtube.com/watch?v=abc" (by decide)).2.2.1⟩

end MungieBot
